import Mathlib

/-!
Verification of the RX-8035 RTC driver (`src/rx8035.py`).

The driver is embedded shallowly: the I2C device's sixteen Bank-0 registers
and the driver's local mirror (`self._buffer`), one-byte scratch buffer
(`self._bytebuf`) and diagnostic output are threaded explicitly through every
operation.  Python integers are modelled as `Int` where an argument may be
negative, and as `Nat` for register contents (a Python `bytearray` cell always
holds a value in `[0, 255]`).  Python `//` and `%` with a positive divisor
coincide with Lean's `Int` `/` and `%` (Euclidean division), which is used
throughout.  Python `x & m` on a non-negative `x` is Nat `&&&`; `x & ~m`
(bit clearing with an infinite-width complement) has no direct Nat
counterpart and is rendered arithmetically, as documented at each use site.
Exceptions (`raise ValueError`) are modelled with `Except String Unit`
returned next to the state reached at the raise point, so that "no bus write
was issued before the error" is a provable statement rather than a convention.
-/

namespace RX8035

/-- A bank of byte registers, indexed by register address (only `0x00`-`0x0F`
are meaningful for Bank 0). -/
def Regs : Type := Nat → Nat

/-- Functional update of one register, mirroring `buf[r] = v`. -/
def regSet (f : Regs) (r v : Nat) : Regs := fun i => if i = r then v else f i

/-- Combined state of the I2C device and the driver object:
`dev` is the peripheral's register file, `buffer` is `self._buffer`,
`bytebuf` is `self._bytebuf[0]`, `log` records every bus write issued
(start register, bytes written), `printed` records diagnostic output, and
`init_error` is the driver's non-fatal construction status flag. -/
structure Driver where
  dev : Regs
  buffer : Regs
  bytebuf : Nat
  log : List (Nat × List Nat)
  printed : List String
  init_error : Bool

/-- `self.__read_bytes(reg, mv)` for an aligned slice of `self._buffer`:
copies `n` device registers starting at `reg` into the same positions of the
local buffer.  (Every call in the source passes a `memoryview` of `_buffer`
that starts exactly at `reg`.)  A read issues no bus write. -/
def readBytes (reg n : Nat) (s : Driver) : Driver :=
  { s with buffer := fun i => if reg ≤ i ∧ i < reg + n then s.dev i else s.buffer i }

/-- `self.__read_byte(reg)`: reads one device register into `self._bytebuf`. -/
def readByte (reg : Nat) (s : Driver) : Driver :=
  { s with bytebuf := s.dev reg }

/-- `self.__write_bytes(reg, mv)` for an aligned slice of `self._buffer`:
writes `n` buffer bytes starting at `reg` to the device, and logs the
transfer. -/
def writeBytes (reg n : Nat) (s : Driver) : Driver :=
  { s with
    dev := fun i => if reg ≤ i ∧ i < reg + n then s.buffer i else s.dev i,
    log := s.log ++ [(reg, (List.range n).map (fun k => s.buffer (reg + k)))] }

/-- `self.__write_byte(reg, val)`: `self._bytebuf[0] = val & 0xff` followed by
a one-byte transfer from `_bytebuf`.  `val & 0xff` is `val % 256`. -/
def writeByte (reg v : Nat) (s : Driver) : Driver :=
  { s with
    dev := regSet s.dev reg (v % 256),
    bytebuf := v % 256,
    log := s.log ++ [(reg, [v % 256])] }

/-- Python `v & ~(2 ^ p)` on a non-negative `v`: clears bit `p`. -/
def bitClear (v p : Nat) : Nat := v - 2 ^ p * (v / 2 ^ p % 2)

/-- `RX8035.__bcd2dec`: `((bcd & 0xf0) >> 4) * 10 + (bcd & 0x0f)`. -/
def bcd2dec (bcd : Nat) : Nat := ((bcd &&& 0xf0) >>> 4) * 10 + (bcd &&& 0x0f)

/-- `RX8035.__dec2bcd`: `tens, units = divmod(dec, 10); (tens << 4) + units`. -/
def dec2bcd (dec : Nat) : Nat := ((dec / 10) <<< 4) + dec % 10

/-- `RX8035.__get_weekday(date, month, year)`: the source's Gaussian weekday
formula, on a 4-digit year.  Python `//` and `%` by the positive constants
`5`, `4`, `100`, `400`, `7` are Lean `Int` `/` and `%`. -/
def get_weekday (date month year : Int) : Int :=
  let m := if month < 3 then month + 12 else month
  let y := if month < 3 then year - 1 else year
  (-1 + date + (13 * m + 8) / 5 + y + y / 4 - y / 100 + y / 400) % 7

/-- `RX8035.__init__(i2c, address)`: allocates zeroed buffers, reads Control2
(register `0x0F`), and if any of PON (`0x10`), XSTP (`0x20`) or VDET (`0x40`)
is set, records `init_error`, prints a diagnostic, and clears Control1 and
Control2 on the device with one two-byte transfer.  `dev` is the register
file of the peripheral the driver is constructed over. -/
def init (dev : Regs) : Driver :=
  let s : Driver :=
    { dev := dev, buffer := fun _ => 0, bytebuf := 0,
      log := [], printed := [], init_error := false }
  let s := readByte 15 s
  let v := s.bytebuf
  let pon := v &&& 0x10 != 0
  let xstp := v &&& 0x20 != 0
  let vdet := v &&& 0x40 != 0
  if pon || xstp || vdet then
    let s := { s with init_error := true,
                      printed := s.printed ++ [statusMsg pon xstp vdet] }
    let b := regSet (regSet s.buffer 14 0) 15 0
    writeBytes 14 2 { s with buffer := b }
  else s
where
  /-- The f-string printed by the constructor; Python renders a `bool`
  as `True` / `False`. -/
  statusMsg (pon xstp vdet : Bool) : String :=
    "RTC status error. PON: " ++ (if pon then "True" else "False")
      ++ ", XSTP: " ++ (if xstp then "True" else "False")
      ++ ", VDET: " ++ (if vdet then "True" else "False")

/-- `RX8035.datetime()`: reads the seven datetime registers in one transfer,
masks each with the fixed mask table, BCD-decodes, and returns
`(year, month, date, weekday, hours, minutes, seconds)`. -/
def datetime (s : Driver) : (Nat × Nat × Nat × Nat × Nat × Nat × Nat) × Driver :=
  let s := readBytes 0 7 s
  let seconds := bcd2dec (s.buffer 0 &&& 0x7F)
  let minutes := bcd2dec (s.buffer 1 &&& 0x7F)
  let hours := bcd2dec (s.buffer 2 &&& 0x3F)
  let weekday := bcd2dec (s.buffer 3 &&& 0x07)
  let date := bcd2dec (s.buffer 4 &&& 0x3F)
  let month := bcd2dec (s.buffer 5 &&& 0x1F)
  let year := bcd2dec (s.buffer 6 &&& 0xFF)
  ((year, month, date, weekday, hours, minutes, seconds), s)

/-- The test `(v is None) or v < lo or v > hi` guarding each `raise` in
`RX8035.write_all`. -/
def outOfRange (v : Option Int) (lo hi : Int) : Bool :=
  match v with
  | none => true
  | some x => decide (x < lo) || decide (hi < x)

/-- The state mutations of `RX8035.write_all` after validation succeeded:
BCD-encode the seven (now known-valid, hence non-negative) fields into the
buffer, read Control2, write the seven datetime registers in one transfer,
then write Control2 back with VDET (bit 6) cleared. -/
def writeAllBody (seconds minutes hours weekday date month year : Nat)
    (s : Driver) : Except String Unit × Driver :=
  let b := regSet s.buffer 0 (dec2bcd seconds)
  let b := regSet b 1 (dec2bcd minutes)
  let b := regSet b 2 (dec2bcd hours ||| 0x80)
  let b := regSet b 4 (dec2bcd date)
  let b := regSet b 3 (dec2bcd weekday)
  let b := regSet b 5 (dec2bcd month)
  let b := regSet b 6 (dec2bcd year)
  let s := readByte 15 { s with buffer := b }
  let s := writeBytes 0 7 s
  let s := writeByte 15 (bitClear s.bytebuf 6) s
  (Except.ok (), s)

/-- `RX8035.write_all(seconds, minutes, hours, weekday, date, month, year)`:
validates each field in source order, raising (modelled as `Except.error`
with the source's message, next to the state at the raise point) on the
first missing or out-of-range field; a missing weekday is computed with
`get_weekday` on `year + 2000`.  All validation precedes every bus
transfer. -/
def writeAll (seconds minutes hours weekday date month year : Option Int)
    (s : Driver) : Except String Unit × Driver :=
  if outOfRange seconds 0 59 then (Except.error "Seconds is out of range [0,59].", s)
  else if outOfRange minutes 0 59 then (Except.error "Minutes is out of range [0,59].", s)
  else if outOfRange hours 0 23 then (Except.error "Hours is out of range [0,23].", s)
  else if outOfRange date 1 31 then (Except.error "Date is out of range [1,31].", s)
  else if outOfRange month 1 12 then (Except.error "Month is out of range [1,12].", s)
  else if outOfRange year 0 99 then (Except.error "Years is out of range [0,99].", s)
  else
    match weekday with
    | none =>
        writeAllBody (seconds.getD 0).toNat (minutes.getD 0).toNat
          (hours.getD 0).toNat
          (get_weekday (date.getD 0) (month.getD 0) (year.getD 0 + 2000)).toNat
          (date.getD 0).toNat (month.getD 0).toNat (year.getD 0).toNat s
    | some w =>
        if decide (w < 0) || decide (6 < w) then
          (Except.error "Day is out of range [0,6].", s)
        else
          writeAllBody (seconds.getD 0).toNat (minutes.getD 0).toNat
            (hours.getD 0).toNat w.toNat
            (date.getD 0).toNat (month.getD 0).toNat (year.getD 0).toNat s

/-- `RX8035.set_datetime(dt)`: forwards the seven entries of `dt` to
`write_all`, whose positional parameter order is
`(seconds, minutes, hours, weekday, date, month, year)`; the source passes
`dt[5], dt[4], dt[3], dt[6], dt[2], dt[1], dt[0] % 100`. -/
def set_datetime (dt : Fin 7 → Int) (s : Driver) : Except String Unit × Driver :=
  writeAll (some (dt 5)) (some (dt 4)) (some (dt 3)) (some (dt 6))
    (some (dt 2)) (some (dt 1)) (some (dt 0 % 100)) s

/-- `RX8035.digital_offset(value)`.  With no value: reads the offset
register into buffer and scratch and decodes the signed 7-bit value
(`-(value ^ 0x7F) - 1` when bit 6 is set).  With a value in `[-62, 63]`:
stores `value & 0x7F` (Python `& 0x7F` on a possibly negative int is
`emod 128`) and writes it.  Otherwise: prints a value error and performs no
write.  The first component is the value returned by a read call. -/
def digital_offset (value : Option Int) (s : Driver) : Option Int × Driver :=
  match value with
  | none =>
      let s := readByte 7 s
      let v := s.bytebuf
      let s := { s with buffer := regSet s.buffer 7 v }
      (some (if v &&& 0x40 ≠ 0 then -(((v ^^^ 0x7F : Nat) : Int)) - 1 else (v : Int)), s)
  | some v =>
      if -62 ≤ v ∧ v ≤ 63 then
        let s := { s with buffer := regSet s.buffer 7 (v.emod 128).toNat }
        (none, writeByte 7 (s.buffer 7) s)
      else
        (none, { s with printed := s.printed ++ ["Value error."] })

/-- `RX8035.const_time_int_pps(mode)`: reads Control1, clears the three CT
mode bits (`v & ~0x07` is `v - v % 8` on a non-negative `v`), sets them to
`mode` only when `mode` is `CONST_TIME_INT_1HZ` (3) or `CONST_TIME_INT_2HZ`
(2), and writes Control1 back. -/
def const_time_int_pps (mode : Option Int) (s : Driver) : Driver :=
  let s := readByte 14 s
  let s := { s with buffer := regSet s.buffer 14 (s.bytebuf - s.bytebuf % 8) }
  let s :=
    if mode = some 3 ∨ mode = some 2 then
      { s with buffer := regSet s.buffer 14 (s.buffer 14 ||| (mode.getD 0).toNat) }
    else s
  writeByte 14 (s.buffer 14) s

/-- The shared tail of `RX8035.weekly_alarm`: clear the weekly-alarm
function flag (bit 1) in the buffered Control2, write Control1+Control2 as
one two-byte transfer, then write the alarm minute, hour and weekday
registers (`0x08`-`0x0A`) as one three-byte transfer. -/
def weeklyAlarmFinish (s : Driver) : Except String Unit × Driver :=
  let s := { s with buffer := regSet s.buffer 15 (bitClear (s.buffer 15) 1) }
  let s := writeBytes 14 2 s
  let s := writeBytes 8 3 s
  (Except.ok (), s)

/-- `RX8035.weekly_alarm(hours, minutes, weekdays)`: reads Control1+Control2;
if all three arguments are `None`, zeroes the buffered alarm minute/hour and
clears the weekly-alarm enable bit (bit 7) in Control1; otherwise a missing
minutes/hours defaults to 0 while a supplied one is validated (raising with
the source's message), the buffered minute/hour are set to the masked BCD
encodings, a truthy (non-zero) `weekdays` overwrites the buffered weekday
mask with `weekdays & 0x7F`, and the enable bit is set.  Both paths finish
with `weeklyAlarmFinish`. -/
def weekly_alarm (hours minutes weekdays : Option Int) (s0 : Driver) :
    Except String Unit × Driver :=
  let s := readBytes 14 2 s0
  if hours = none ∧ minutes = none ∧ weekdays = none then
    let b := regSet (regSet s.buffer 9 0) 8 0
    let b := regSet b 14 (bitClear (b 14) 7)
    weeklyAlarmFinish { s with buffer := b }
  else
    let mi : Int := minutes.getD 0
    if minutes ≠ none ∧ (mi < 0 ∨ 59 < mi) then
      (Except.error "Minutes is out of range [0,59].", s)
    else
      let s := { s with buffer := regSet s.buffer 8 (dec2bcd mi.toNat &&& 0x7F) }
      let h : Int := hours.getD 0
      if hours ≠ none ∧ (h < 0 ∨ 23 < h) then
        (Except.error "Hours is out of range [0,23].", s)
      else
        let s := { s with buffer := regSet s.buffer 9 (dec2bcd h.toNat &&& 0x3F) }
        let s :=
          match weekdays with
          | some w =>
              if w ≠ 0 then
                { s with buffer := regSet s.buffer 10 (w.emod 128).toNat }
              else s
          | none => s
        let s := { s with buffer := regSet s.buffer 14 (s.buffer 14 ||| 0x80) }
        weeklyAlarmFinish s

/-- The message of the first failing validation check of `write_all`, in the
source's check order (`None` when every check passes); each message names the
field the source checks there. -/
def firstRangeMsg (seconds minutes hours weekday date month year : Option Int) :
    Option String :=
  if outOfRange seconds 0 59 then some "Seconds is out of range [0,59]."
  else if outOfRange minutes 0 59 then some "Minutes is out of range [0,59]."
  else if outOfRange hours 0 23 then some "Hours is out of range [0,23]."
  else if outOfRange date 1 31 then some "Date is out of range [1,31]."
  else if outOfRange month 1 12 then some "Month is out of range [1,12]."
  else if outOfRange year 0 99 then some "Years is out of range [0,99]."
  else
    match weekday with
    | none => none
    | some w => if decide (w < 0) || decide (6 < w) then
        some "Day is out of range [0,6]." else none

/-- A driver over a device whose registers all read zero (clean status, so
construction performs no write); used to instantiate universally quantified
theorems at a concrete state. -/
def initState : Driver :=
  { dev := fun _ => 0, buffer := fun _ => 0, bytebuf := 0,
    log := [], printed := [], init_error := false }

/-- A device register file whose weekly-alarm weekday register (`0x0A`) holds
`0x06` (the MON|TUE mask) while Control2 reads clean. -/
def weekdayPresetDev : Regs := fun r => if r = 10 then 6 else 0

end RX8035

namespace Calendar

/-- Reference Gregorian leap-year rule (independent of the driver). -/
def isLeapYear (y : Nat) : Bool := (y % 4 == 0 && y % 100 != 0) || y % 400 == 0

/-- Days strictly before month `m` (1-12) in a year of the given leapness. -/
def daysBeforeMonth (leap : Bool) (m : Nat) : Nat :=
  (match m with
   | 1 => 0 | 2 => 31 | 3 => 59 | 4 => 90 | 5 => 120 | 6 => 151
   | 7 => 181 | 8 => 212 | 9 => 243 | 10 => 273 | 11 => 304 | _ => 334)
  + (if 3 ≤ m ∧ leap = true then 1 else 0)

/-- Number of days from proleptic-Gregorian 0001-01-01 to year `y`, month `m`,
day `d` (`y ≥ 1`, `m ∈ [1,12]`, `d ≥ 1`).  `(y-1)/4 - (y-1)/100 + (y-1)/400`
counts the leap years among `1..y-1`. -/
def dayNumber (y m d : Nat) : Nat :=
  365 * (y - 1) + ((y - 1) / 4 + (y - 1) / 400 - (y - 1) / 100)
    + daysBeforeMonth (isLeapYear y) m + (d - 1)

/-- Reference weekday of a proleptic-Gregorian date.  0001-01-01 was a Monday,
so the mapping is 0 = Monday, 1 = Tuesday, ..., 5 = Saturday, 6 = Sunday. -/
def refWeekday (y m d : Nat) : Nat := dayNumber y m d % 7

end Calendar

/-!
Helper lemmas shared by the claim theorems.
-/

open RX8035 Calendar

theorem divStep (y k : Nat) (hy : 1 ≤ y) :
    (y % k = 0 ∧ y / k = (y - 1) / k + 1) ∨ (¬ y % k = 0 ∧ y / k = (y - 1) / k) := by
  have h := Nat.succ_div (y - 1) k
  rw [Nat.sub_add_cancel hy] at h
  by_cases hd : k ∣ y
  · left
    refine ⟨Nat.dvd_iff_mod_eq_zero.mp hd, ?_⟩
    rw [h, if_pos hd]
  · right
    refine ⟨fun hc => hd (Nat.dvd_iff_mod_eq_zero.mpr hc), ?_⟩
    rw [h, if_neg hd, Nat.add_zero]

theorem or_low3_eq_add (x m : Nat) (hm : m < 8) : 8 * x ||| m = 8 * x + m := by
  have := Nat.mul_add_lt_is_or (i := 3) (b := m) (by norm_num [hm]) x
  norm_num at this ⊢
  omega

theorem decode_sec (v : Nat) (h : v ≤ 59) : bcd2dec (dec2bcd v &&& 0x7F) = v := by
  have key : ∀ x : Fin 60, bcd2dec (dec2bcd x.val &&& 0x7F) = x.val := by decide
  exact key ⟨v, by omega⟩

theorem decode_hr (v : Nat) (h : v ≤ 23) :
    bcd2dec ((dec2bcd v ||| 0x80) &&& 0x3F) = v := by
  have key : ∀ x : Fin 24, bcd2dec ((dec2bcd x.val ||| 0x80) &&& 0x3F) = x.val := by
    decide
  exact key ⟨v, by omega⟩

theorem decode_wd (v : Nat) (h : v ≤ 6) : bcd2dec (dec2bcd v &&& 0x07) = v := by
  have key : ∀ x : Fin 7, bcd2dec (dec2bcd x.val &&& 0x07) = x.val := by decide
  exact key ⟨v, by omega⟩

theorem decode_date (v : Nat) (h : v ≤ 31) : bcd2dec (dec2bcd v &&& 0x3F) = v := by
  have key : ∀ x : Fin 32, bcd2dec (dec2bcd x.val &&& 0x3F) = x.val := by decide
  exact key ⟨v, by omega⟩

theorem decode_mo (v : Nat) (h : v ≤ 12) : bcd2dec (dec2bcd v &&& 0x1F) = v := by
  have key : ∀ x : Fin 13, bcd2dec (dec2bcd x.val &&& 0x1F) = x.val := by decide
  exact key ⟨v, by omega⟩

theorem decode_yr (v : Nat) (h : v ≤ 99) : bcd2dec (dec2bcd v &&& 0xFF) = v := by
  have key : ∀ x : Fin 100, bcd2dec (dec2bcd x.val &&& 0xFF) = x.val := by decide
  exact key ⟨v, by omega⟩

theorem get_weekday_lt7 (d m y : Int) :
    0 ≤ get_weekday d m y ∧ get_weekday d m y < 7 := by
  unfold get_weekday
  constructor
  · exact Int.emod_nonneg _ (by norm_num)
  · exact Int.emod_lt_of_pos _ (by norm_num)

/-!
Claim theorems.
-/

/-- C1 (counterexample): on the tuple `(2024, 6, 15, 6, 13, 45, 30)` written
in the claimed `(year, month, date, weekday, hours, minutes, seconds)` order,
`set_datetime` does not have the effect the claim assigns to it: the claim's
routing (`weekday = 6`, `hours = 13`, `minutes = 45`, `seconds = 30`)
succeeds, while `set_datetime` itself raises, because it feeds tuple index 3
(here the weekday 6) to `hours` and tuple index 6 (here the seconds 30) to
`weekday`, and 30 is out of the weekday range. -/
theorem set_datetime_claim_cex :
    (set_datetime ![2024, 6, 15, 6, 13, 45, 30] initState).1 ≠
      (writeAll (some 30) (some 45) (some 13) (some 6) (some 15) (some 6)
        (some 24) initState).1 := by
  have h1 : (set_datetime ![2024, 6, 15, 6, 13, 45, 30] initState).1 =
      Except.error "Day is out of range [0,6]." := rfl
  have h2 : (writeAll (some 30) (some 45) (some 13) (some 6) (some 15) (some 6)
      (some 24) initState).1 = Except.ok () := rfl
  rw [h1, h2]
  intro hcontra
  exact Except.noConfusion hcontra

/-- C1 (amended): `set_datetime` accepts its 7-tuple in
`(year, month, date, hours, minutes, seconds, weekday)` order — the layout of
`time.localtime()` — i.e. tuple index 3 becomes `hours`, index 4 `minutes`,
index 5 `seconds`, and index 6 `weekday`, with the year reduced modulo 100;
with that routing it is exactly `write_all` on the named fields. -/
theorem set_datetime_forwards (y mo d h mi sec wd : Int) (s : Driver) :
    set_datetime ![y, mo, d, h, mi, sec, wd] s =
      writeAll (some sec) (some mi) (some h) (some wd) (some d) (some mo)
        (some (y % 100)) s := rfl

/-- C2 (counterexample): the weekday algorithm maps 2024-01-01 to 0 and
2000-03-01 to 2, not to the claimed Monday(1) and Wednesday(3) of a
0 = Sunday encoding. -/
theorem get_weekday_claim_cex :
    get_weekday 1 1 2024 ≠ 1 ∧ get_weekday 1 3 2000 ≠ 3 := by decide

/-- C2 (amended): for every Gregorian date (`y ≥ 1`, `month ∈ [1,12]`,
`date ≥ 1`, which covers all 4-digit years), the source's weekday formula
equals the reference proleptic-Gregorian weekday under the mapping
0 = Monday, ..., 6 = Sunday (the convention of `time.localtime`); in
particular 2024-01-01 (a Monday) yields 0 and 2000-03-01 (a Wednesday)
yields 2. -/
theorem get_weekday_matches_reference (y m d : Nat)
    (hy : 1 ≤ y) (hm1 : 1 ≤ m) (hm2 : m ≤ 12) (hd : 1 ≤ d) :
    get_weekday (d : Int) (m : Int) (y : Int) = (refWeekday y m d : Int) ∧
    get_weekday 1 1 2024 = 0 ∧ get_weekday 1 3 2000 = 2 := by
  refine ⟨?_, by decide, by decide⟩
  unfold get_weekday refWeekday dayNumber daysBeforeMonth
  have h4 := divStep y 4 hy
  have h100 := divStep y 100 hy
  have h400 := divStep y 400 hy
  have hc : ((y : Int) - 1) = ((y - 1 : Nat) : Int) := by omega
  interval_cases m <;>
    · dsimp only
      split_ifs <;>
        simp only [isLeapYear, Bool.or_eq_true, Bool.and_eq_true, beq_iff_eq,
          bne_iff_ne] at * <;>
        (try rw [hc]) <;>
        omega

/-- C2 witness: the amended theorem applied at 2024-06-15. -/
theorem get_weekday_matches_reference_witness :
    get_weekday ((15 : Nat) : Int) ((6 : Nat) : Int) ((2024 : Nat) : Int) =
      (refWeekday 2024 6 15 : Int) ∧
    get_weekday 1 1 2024 = 0 ∧ get_weekday 1 3 2000 = 2 :=
  get_weekday_matches_reference 2024 6 15 (by norm_num) (by norm_num)
    (by norm_num) (by norm_num)

/-- C3 (counterexample): over a device whose weekday register `0x0A` holds
`0x06` but with a freshly constructed driver (whose local buffer is zeroed),
`weekly_alarm(hours=8, minutes=0)` with weekdays omitted does not leave the
device register unchanged: the closing three-byte transfer overwrites it
with the stale buffered value 0. -/
theorem weekly_alarm_claim_cex :
    (weekly_alarm (some 8) (some 0) none (init weekdayPresetDev)).2.dev 10 ≠
      (init weekdayPresetDev).dev 10 := by decide

/-- C3 (amended): with hours and minutes supplied and valid, `weekly_alarm`
with weekdays omitted or zero leaves the driver's buffered weekday byte
unchanged and writes that buffered value to device register `0x0A` (so the
register is preserved exactly when the buffer already mirrors the device,
e.g. when it was last set through this instance); with a nonzero weekdays
mask it overwrites both with `mask & 0x7F` — for `MON|TUE = 6`, with
`0x06`. -/
theorem weekly_alarm_weekday_register (s : Driver) (h m : Int) (wd : Option Int)
    (hh : 0 ≤ h ∧ h ≤ 23) (hm : 0 ≤ m ∧ m ≤ 59) :
    ((wd = none ∨ wd = some 0) →
      ((weekly_alarm (some h) (some m) wd s).2.dev 10 = s.buffer 10 ∧
       (weekly_alarm (some h) (some m) wd s).2.buffer 10 = s.buffer 10 ∧
       (s.buffer 10 = s.dev 10 →
         (weekly_alarm (some h) (some m) wd s).2.dev 10 = s.dev 10))) ∧
    (∀ w : Int, wd = some w → w ≠ 0 →
      (weekly_alarm (some h) (some m) wd s).2.dev 10 = (w.emod 128).toNat) := by
  have h2 : ¬(m < 0 ∨ 59 < m) := by omega
  have h3 : ¬(h < 0 ∨ 23 < h) := by omega
  constructor
  · rintro (rfl | rfl) <;>
      refine ⟨?_, ?_, ?_⟩ <;>
        simp [weekly_alarm, weeklyAlarmFinish, readBytes, writeBytes, regSet, h2, h3]
  · rintro w rfl hw
    simp [weekly_alarm, weeklyAlarmFinish, readBytes, writeBytes, regSet, h2, h3, hw]

/-- C3 witness: `weekly_alarm(hours=8, minutes=0, weekdays=MON|TUE)` stores
`0x06` in register `0x0A`. -/
theorem weekly_alarm_weekday_register_witness :
    (weekly_alarm (some 8) (some 0) (some 6) initState).2.dev 10 =
      ((6 : Int).emod 128).toNat :=
  (weekly_alarm_weekday_register initState 8 0 (some 6) (by norm_num)
    (by norm_num)).2 6 rfl (by norm_num)

/-- C4: whenever one of seconds/minutes/hours/date/month/year is missing or
out of range, or a supplied weekday is outside `[0,6]`, `write_all` returns
the invalid-argument error of the first offending field in check order (each
message names that field) and the state — device registers, buffer, and the
bus-write log — is exactly the input state: no bus write was issued. -/
theorem write_all_invalid (s : Driver)
    (seconds minutes hours weekday date month year : Option Int)
    (hbad : outOfRange seconds 0 59 = true ∨ outOfRange minutes 0 59 = true ∨
      outOfRange hours 0 23 = true ∨ outOfRange date 1 31 = true ∨
      outOfRange month 1 12 = true ∨ outOfRange year 0 99 = true ∨
      (∃ w, weekday = some w ∧ (w < 0 ∨ 6 < w))) :
    ∃ msg, writeAll seconds minutes hours weekday date month year s =
        (Except.error msg, s) ∧
      firstRangeMsg seconds minutes hours weekday date month year = some msg := by
  unfold writeAll firstRangeMsg
  split_ifs with h1 h2 h3 h4 h5 h6
  · exact ⟨_, rfl, rfl⟩
  · exact ⟨_, rfl, rfl⟩
  · exact ⟨_, rfl, rfl⟩
  · exact ⟨_, rfl, rfl⟩
  · exact ⟨_, rfl, rfl⟩
  · exact ⟨_, rfl, rfl⟩
  · rcases weekday with _ | w
    · exfalso
      rcases hbad with hb | hb | hb | hb | hb | hb | ⟨w, hw, _⟩ <;>
        simp_all
    · by_cases hw : (decide (w < 0) || decide (6 < w)) = true
      · simp only [hw, if_pos]
        exact ⟨_, rfl, rfl⟩
      · exfalso
        rcases hbad with hb | hb | hb | hb | hb | hb | ⟨w', hw', hrange⟩ <;>
          simp_all
        omega

/-- C4 witness: `seconds=60` is rejected with the seconds message and no
state change. -/
theorem write_all_invalid_witness :
    writeAll (some 60) (some 0) (some 0) none (some 1) (some 1) (some 0)
      initState =
      (Except.error "Seconds is out of range [0,59].", initState) := by
  obtain ⟨msg, heq, hmsg⟩ := write_all_invalid initState (some 60) (some 0)
    (some 0) none (some 1) (some 1) (some 0) (Or.inl (by decide))
  have hm : some "Seconds is out of range [0,59]." = some msg := by
    rw [← hmsg]
    rfl
  cases hm
  exact heq

/-- C5 (counterexample): writing `{year=24, month=6, date=15, hours=13,
minutes=45, seconds=30}` with weekday omitted and reading back does not give
the claimed weekday Saturday(6): the auto-computed weekday of 2024-06-15 is
5 (Saturday under the code's 0 = Monday convention). -/
theorem datetime_roundtrip_claim_cex :
    (datetime (writeAll (some 30) (some 45) (some 13) none (some 15) (some 6)
        (some 24) initState).2).1 ≠ (24, 6, 15, 6, 13, 45, 30) := by
  have hval : (datetime (writeAll (some 30) (some 45) (some 13) none (some 15)
      (some 6) (some 24) initState).2).1 = (24, 6, 15, 5, 13, 45, 30) := by decide
  rw [hval]
  decide

/-- C5 (amended): writing any valid datetime with `write_all` (weekday
omitted) succeeds — the seven fields are BCD-encoded, the hour byte gets its
24-hour bit 7, and all seven registers go out in one transfer — and a
subsequent `datetime()` (which masks each register, the `0x3F` hours mask
stripping the 24-hour bit, and BCD-decodes) returns exactly the written
values with the weekday auto-computed by `get_weekday`; for 2024-06-15 that
weekday is 5, Saturday in the code's 0 = Monday encoding. -/
theorem write_all_datetime_roundtrip (s : Driver) (sec mi h d mo y : Nat)
    (hsec : sec ≤ 59) (hmi : mi ≤ 59) (hh : h ≤ 23)
    (hd1 : 1 ≤ d) (hd2 : d ≤ 31) (hmo1 : 1 ≤ mo) (hmo2 : mo ≤ 12) (hy : y ≤ 99) :
    (writeAll (some (sec : Int)) (some (mi : Int)) (some (h : Int)) none
        (some (d : Int)) (some (mo : Int)) (some (y : Int)) s).1 = Except.ok () ∧
    (datetime (writeAll (some (sec : Int)) (some (mi : Int)) (some (h : Int)) none
        (some (d : Int)) (some (mo : Int)) (some (y : Int)) s).2).1 =
      (y, mo, d, (get_weekday (d : Int) (mo : Int) ((y : Int) + 2000)).toNat,
        h, mi, sec) := by
  have h1 : outOfRange (some (sec : Int)) 0 59 = false := by
    simp [outOfRange]; omega
  have h2 : outOfRange (some (mi : Int)) 0 59 = false := by
    simp [outOfRange]; omega
  have h3 : outOfRange (some (h : Int)) 0 23 = false := by
    simp [outOfRange]; omega
  have h4 : outOfRange (some (d : Int)) 1 31 = false := by
    simp [outOfRange]; omega
  have h5 : outOfRange (some (mo : Int)) 1 12 = false := by
    simp [outOfRange]; omega
  have h6 : outOfRange (some (y : Int)) 0 99 = false := by
    simp [outOfRange]; omega
  have hb := get_weekday_lt7 (d : Int) (mo : Int) ((y : Int) + 2000)
  constructor
  · simp [writeAll, writeAllBody, h1, h2, h3, h4, h5, h6]
  · simp [writeAll, writeAllBody, datetime, readBytes, readByte, writeBytes,
      writeByte, regSet, h1, h2, h3, h4, h5, h6]
    exact ⟨decode_yr y hy, decode_mo mo hmo2, decode_date d hd2,
      decode_wd _ (by omega), decode_hr h hh, decode_sec mi hmi,
      decode_sec sec hsec⟩

/-- C5 witness: the amended round trip at the claim's concrete datetime. -/
theorem write_all_datetime_roundtrip_witness :
    (writeAll (some ((30 : Nat) : Int)) (some ((45 : Nat) : Int))
        (some ((13 : Nat) : Int)) none (some ((15 : Nat) : Int))
        (some ((6 : Nat) : Int)) (some ((24 : Nat) : Int)) initState).1 =
      Except.ok () ∧
    (datetime (writeAll (some ((30 : Nat) : Int)) (some ((45 : Nat) : Int))
        (some ((13 : Nat) : Int)) none (some ((15 : Nat) : Int))
        (some ((6 : Nat) : Int)) (some ((24 : Nat) : Int)) initState).2).1 =
      (24, 6, 15, (get_weekday ((15 : Nat) : Int) ((6 : Nat) : Int)
          (((24 : Nat) : Int) + 2000)).toNat, 13, 45, 30) :=
  write_all_datetime_roundtrip initState 30 45 13 15 6 24 (by norm_num)
    (by norm_num) (by norm_num) (by norm_num) (by norm_num) (by norm_num)
    (by norm_num) (by norm_num)

/-- C6: the BCD conversion pair of the driver round-trips on every
two-digit value: `bcd2dec (dec2bcd d) = d` for all `d ∈ [0, 99]`. -/
theorem bcd_roundtrip (d : Nat) (h : d ≤ 99) : bcd2dec (dec2bcd d) = d := by
  have key : ∀ x : Fin 100, bcd2dec (dec2bcd x.val) = x.val := by decide
  exact key ⟨d, by omega⟩

/-- C6 witness: the round trip at 37. -/
theorem bcd_roundtrip_witness : 37 ≤ 99 ∧ bcd2dec (dec2bcd 37) = 37 :=
  ⟨by decide, bcd_roundtrip 37 (by decide)⟩

/-- C7: construction reads Control2 and `init_error` is set if and only if
one of PON/XSTP/VDET is set in it; in that case a diagnostic is reported and
one two-byte transfer clears Control1 and Control2 to `0x00` on the device;
with a clean Control2 no bus write at all is issued and the device is
untouched. -/
theorem init_status_check (dev : Regs) :
    ((init dev).init_error = true ↔
      (dev 15 &&& 0x10 ≠ 0 ∨ dev 15 &&& 0x20 ≠ 0 ∨ dev 15 &&& 0x40 ≠ 0)) ∧
    ((dev 15 &&& 0x10 ≠ 0 ∨ dev 15 &&& 0x20 ≠ 0 ∨ dev 15 &&& 0x40 ≠ 0) →
      (init dev).init_error = true ∧
      (init dev).dev 14 = 0 ∧ (init dev).dev 15 = 0 ∧
      (init dev).log = [(14, [0, 0])] ∧ (init dev).printed ≠ []) ∧
    (¬(dev 15 &&& 0x10 ≠ 0 ∨ dev 15 &&& 0x20 ≠ 0 ∨ dev 15 &&& 0x40 ≠ 0) →
      (init dev).log = [] ∧ (init dev).dev = dev ∧
      (init dev).init_error = false) := by
  by_cases hcond : dev 15 &&& 0x10 ≠ 0 ∨ dev 15 &&& 0x20 ≠ 0 ∨ dev 15 &&& 0x40 ≠ 0
  · have hbool : ((dev 15 &&& 0x10 != 0) || (dev 15 &&& 0x20 != 0) ||
        (dev 15 &&& 0x40 != 0)) = true := by
      simp only [Bool.or_eq_true, bne_iff_ne]
      tauto
    simp [init, readByte, writeBytes, regSet, hbool, hcond, List.range_succ]
  · have hbool : ((dev 15 &&& 0x10 != 0) || (dev 15 &&& 0x20 != 0) ||
        (dev 15 &&& 0x40 != 0)) = false := by
      simp only [Bool.or_eq_false_iff, bne_eq_false_iff_eq]
      push_neg at hcond
      tauto
    simp [init, readByte, writeBytes, regSet, hbool, hcond]

/-- C7 witness: a device read with PON set is reported and Control1/Control2
are cleared. -/
theorem init_status_check_witness :
    (init (fun r => if r = 15 then 0x10 else 0)).init_error = true ∧
    (init (fun r => if r = 15 then 0x10 else 0)).dev 14 = 0 ∧
    (init (fun r => if r = 15 then 0x10 else 0)).dev 15 = 0 ∧
    (init (fun r => if r = 15 then 0x10 else 0)).log = [(14, [0, 0])] ∧
    (init (fun r => if r = 15 then 0x10 else 0)).printed ≠ [] :=
  (init_status_check (fun r => if r = 15 then 0x10 else 0)).2.1 (by decide)

/-- C8: `digital_offset` with any value outside `[-62, 63]` does not raise
(its result type carries no error), reports the value error diagnostic, and
changes neither the device registers (in particular the offset register),
the local buffer, nor the bus-write log. -/
theorem digital_offset_rejected (s : Driver) (v : Int)
    (h : v < -62 ∨ 63 < v) :
    (digital_offset (some v) s).1 = none ∧
    (digital_offset (some v) s).2.dev = s.dev ∧
    (digital_offset (some v) s).2.buffer = s.buffer ∧
    (digital_offset (some v) s).2.log = s.log ∧
    (digital_offset (some v) s).2.printed = s.printed ++ ["Value error."] := by
  have hcond : ¬(-62 ≤ v ∧ v ≤ 63) := by omega
  simp [digital_offset, hcond]

/-- C8 witness: `digital_offset(64)` is a rejected no-op. -/
theorem digital_offset_rejected_witness :
    (digital_offset (some 64) initState).1 = none ∧
    (digital_offset (some 64) initState).2.dev = initState.dev ∧
    (digital_offset (some 64) initState).2.buffer = initState.buffer ∧
    (digital_offset (some 64) initState).2.log = initState.log ∧
    (digital_offset (some 64) initState).2.printed =
      initState.printed ++ ["Value error."] :=
  digital_offset_rejected initState 64 (by decide)

/-- C9: for every prior Control1 byte and every requested mode,
`const_time_int_pps` leaves Control1 equal to its old value with the 3-bit
CT field cleared, plus the requested mode exactly when that mode is
`CONST_TIME_INT_1HZ` (3) or `CONST_TIME_INT_2HZ` (2); the remaining Control1
bits (`dev 14 / 8`) and every other register are unchanged. -/
theorem const_time_int_pps_spec (s : Driver) (mode : Option Int)
    (h : s.dev 14 < 256) :
    (const_time_int_pps mode s).dev 14 =
      8 * (s.dev 14 / 8) +
        (if mode = some 3 then 3 else if mode = some 2 then 2 else 0) ∧
    (const_time_int_pps mode s).dev 14 / 8 = s.dev 14 / 8 ∧
    (∀ r, r ≠ 14 → (const_time_int_pps mode s).dev r = s.dev r) := by
  have hsub : s.dev 14 - s.dev 14 % 8 = 8 * (s.dev 14 / 8) := by omega
  have hother : ∀ r, r ≠ 14 → (const_time_int_pps mode s).dev r = s.dev r := by
    intro r hr
    simp only [const_time_int_pps, readByte, writeByte]
    split <;> simp [regSet, hr]
  by_cases hm3 : mode = some 3
  · subst hm3
    have hval : (const_time_int_pps (some 3) s).dev 14 = 8 * (s.dev 14 / 8) + 3 := by
      simp [const_time_int_pps, readByte, writeByte, regSet]
      rw [hsub, or_low3_eq_add _ 3 (by norm_num)]
      exact Nat.mod_eq_of_lt (by omega)
    refine ⟨by rw [hval]; norm_num, by rw [hval]; omega, hother⟩
  · by_cases hm2 : mode = some 2
    · subst hm2
      have hval : (const_time_int_pps (some 2) s).dev 14 = 8 * (s.dev 14 / 8) + 2 := by
        simp [const_time_int_pps, readByte, writeByte, regSet, hm3]
        rw [hsub, or_low3_eq_add _ 2 (by norm_num)]
        exact Nat.mod_eq_of_lt (by omega)
      refine ⟨by rw [hval]; simp [hm3], by rw [hval]; omega, hother⟩
    · have hcond : ¬(mode = some 3 ∨ mode = some 2) := by tauto
      have hval : (const_time_int_pps mode s).dev 14 = 8 * (s.dev 14 / 8) := by
        simp [const_time_int_pps, readByte, writeByte, regSet, hcond]
        rw [hsub]
        exact Nat.mod_eq_of_lt (by omega)
      refine ⟨by rw [hval]; simp [hm3, hm2], by rw [hval]; omega, hother⟩

/-- C9 witness: requesting the 1 Hz mode on a zeroed Control1 stores 3. -/
theorem const_time_int_pps_spec_witness :
    (const_time_int_pps (some 3) initState).dev 14 =
      8 * (initState.dev 14 / 8) +
        (if (some 3 : Option Int) = some 3 then 3
         else if (some 3 : Option Int) = some 2 then 2 else 0) :=
  (const_time_int_pps_spec initState (some 3) (by decide)).1

/-- C10: `weekly_alarm` called with `weekdays = 0` supplied and hours and
minutes omitted takes the enable branch, not the disable branch: it returns
without error, writes BCD 00:00 to the alarm minute and hour registers, sets
the weekly-alarm enable bit (bit 7) of Control1, and stores no mask value:
the buffered weekday byte is unchanged and device register `0x0A` receives
that unchanged pre-call buffer value. -/
theorem weekly_alarm_zero_mask (s : Driver) :
    (weekly_alarm none none (some 0) s).1 = Except.ok () ∧
    (weekly_alarm none none (some 0) s).2.dev 8 = 0 ∧
    (weekly_alarm none none (some 0) s).2.dev 9 = 0 ∧
    (weekly_alarm none none (some 0) s).2.dev 14 = s.dev 14 ||| 0x80 ∧
    Nat.testBit ((weekly_alarm none none (some 0) s).2.dev 14) 7 = true ∧
    (weekly_alarm none none (some 0) s).2.buffer 10 = s.buffer 10 ∧
    (weekly_alarm none none (some 0) s).2.dev 10 = s.buffer 10 := by
  refine ⟨?_, ?_, ?_, ?_, ?_, ?_, ?_⟩ <;>
    (simp [weekly_alarm, weeklyAlarmFinish, readBytes, writeBytes, regSet,
      dec2bcd, Nat.testBit_or] <;>
      exact Or.inr (by decide))

/-- C10 witness: the zero-mask call on the concrete clean state. -/
theorem weekly_alarm_zero_mask_witness :
    (weekly_alarm none none (some 0) initState).1 = Except.ok () ∧
    (weekly_alarm none none (some 0) initState).2.dev 8 = 0 ∧
    (weekly_alarm none none (some 0) initState).2.dev 9 = 0 ∧
    (weekly_alarm none none (some 0) initState).2.dev 14 =
      initState.dev 14 ||| 0x80 ∧
    Nat.testBit ((weekly_alarm none none (some 0) initState).2.dev 14) 7 = true ∧
    (weekly_alarm none none (some 0) initState).2.buffer 10 =
      initState.buffer 10 ∧
    (weekly_alarm none none (some 0) initState).2.dev 10 =
      initState.buffer 10 :=
  weekly_alarm_zero_mask initState
